import Mathlib

/-!
# ITKExamples: two example programs, as Lean definitions

Embedded sources:

* `src/Core/Common/ConceptCheckingIsSameDimension/Code.cxx`
* `src/Filtering/LabelMap/ApplyMorphologicalClosingOnSpecificLabelObject/Code.cxx`

Both files are a `main` that calls into the ITK toolkit.  The toolkit and the C
library are not part of the repository: the calls whose result decides the
control flow of `main` (`atoi`, `FlatStructuringElement::Ball`,
`ImageFileWriter::Update`) are fields of a `Library` value over which every
theorem quantifies.  Filter objects are records of the properties `main` sets on
them; a data object (`GetOutput`) is the record of the filter that produces it.

Conventions:

* `argc` is the C `int`, `argv` maps an index to the string stored there
  (every `argv[i]` the program reads is taken to be a valid C string);
* `std::cerr` is the text `main` has inserted into it so far (what the toolkit
  may print on its own is not recorded), `std::endl` is a line feed;
* `New()`, the setters and `GetOutput` are taken not to throw; the two calls that
  compute, `Ball` and `Update()`, may throw;
* `unsigned char` has 8 bits and `unsigned int` has 32 bits, values are `Nat`
  and conversions from `int` reduce modulo `2 ^ 8` and `2 ^ 32`.
-/

namespace ITKExamples

/-! ## Shared: process exit, exceptions -/

/-- The macro `EXIT_SUCCESS` of `<cstdlib>`. -/
def EXIT_SUCCESS : Int := 0

/-- The macro `EXIT_FAILURE` of `<cstdlib>`. -/
def EXIT_FAILURE : Int := 1

/-- The manipulator `std::endl`: the text it inserts. -/
def endl : String := "\n"

/-- An `itk::ExceptionObject` (or an object of a class derived from it), kept as
the text that `operator<<` prints for it. -/
structure ExceptionObject where
  Print : String
  deriving DecidableEq, Repr

/-- What a library call can throw: an `itk::ExceptionObject`, which the handler
`catch( itk::ExceptionObject & error )` matches, or an exception of any other
type (`std::bad_alloc`, `std::length_error`, ...), which it does not match. -/
inductive Thrown where
  | itk (error : ExceptionObject)
  | other (what : String)
  deriving DecidableEq, Repr

/-- How `main` ends: it returns an exit code, or an exception leaves `main`
uncaught and the process is terminated without returning. -/
inductive Exit where
  | returned (code : Int)
  | terminated (uncaught : Thrown)
  deriving DecidableEq, Repr

/-! ## Core/Common/ConceptCheckingIsSameDimension -/

namespace ConceptCheckingIsSameDimension

/-- The pixel types the program names. -/
inductive PixelT where
  | unsigned_char
  deriving DecidableEq, Repr

/-- The instantiation `itk::Image< TPixel, VImageDimension >`: the type-level data
the program uses. -/
structure ImageT where
  PixelType : PixelT
  ImageDimension : Nat
  deriving DecidableEq, Repr

/-- Modelled from the spec: `itk::Concept::SameDimension< D1, D2 >` and
`itkConceptMacro` come from `itkConceptChecking.h`, which is not under `src/`.
The spec calls it "a compile-time type-trait check that two image types share
the same dimensionality": the concept is satisfied when the two dimensions are
the same number. -/
def Concept.SameDimension (D1 D2 : Nat) : Bool :=
  D1 == D2

/-- What is known of one build-and-run of the program: the concept checks
instantiated so far, as pairs `(D1, D2)`, and the text inserted into
`std::cerr`. -/
structure World where
  checks : List (Nat × Nat) := []
  stderr : String := ""
  deriving DecidableEq, Repr

/-- The result of running the program: how `main` ended and the final world. -/
structure Run where
  exit : Exit
  final : World
  deriving DecidableEq, Repr

/-- The function template `CheckIfDimensionIsTheSame< TImage, VDimension >`
(Code.cxx lines 22-26).  Its body is only the concept check
`SameDimension< TImage::ImageDimension, VDimension >`; `none` stands for an
instantiation the concept rejects (the program is ill-formed and there is no
run), `some` for an accepted one, which does nothing when called. -/
def CheckIfDimensionIsTheSame (TImage : ImageT) (VDimension : Nat) (w : World) : Option World :=
  if Concept.SameDimension TImage.ImageDimension VDimension then
    some { w with checks := w.checks ++ [(TImage.ImageDimension, VDimension)] }
  else
    none

/-- The function `main( int, char* [] )` (Code.cxx lines 27-41).  Both parameters
are unnamed in the source and never read. -/
def main (_argc : Int) (_argv : Nat → String) : Option Run :=
  let w : World := {}
  let Dimension : Nat := 2
  let PixelType : PixelT := .unsigned_char
  let ImageType : ImageT := { PixelType := PixelType, ImageDimension := Dimension }
  match CheckIfDimensionIsTheSame ImageType 2 w with
  | none => none
  | some w =>
    let ImageType2 : ImageT := { PixelType := PixelType, ImageDimension := Dimension }
    match CheckIfDimensionIsTheSame ImageType ImageType2.ImageDimension w with
    | none => none
    | some w => some { exit := .returned EXIT_SUCCESS, final := w }

end ConceptCheckingIsSameDimension

/-! ## Filtering/LabelMap/ApplyMorphologicalClosingOnSpecificLabelObject -/

namespace ApplyMorphologicalClosingOnSpecificLabelObject

/-- The constant `Dimension` (Code.cxx line 41). -/
def Dimension : Nat := 2

/-- The conversion `static_cast< PixelType >( int )` with `PixelType` the type
`unsigned char` (Code.cxx lines 43 and 48): reduction modulo `2 ^ 8`. -/
def toPixelType (n : Int) : Nat :=
  (n % 256).toNat

/-- The implicit conversion from `int` to `unsigned int` in the initialisation of
`radiusValue` (Code.cxx line 49): reduction modulo `2 ^ 32`. -/
def toUnsignedInt (n : Int) : Nat :=
  (n % 4294967296).toNat

/-- The smallest value of a 32-bit `int`. -/
def INT_MIN : Int := -2147483648

/-- The largest value of a 32-bit `int`. -/
def INT_MAX : Int := 2147483647

/-- The constant `itk::NumericTraits< PixelType >::Zero`. -/
def NumericTraits.Zero : Nat := 0

/-- The type `StructuringElementType::RadiusType`, an `itk::Size`: one component
for each dimension. -/
abbrev RadiusType := List Nat

/-- The call `radius.Fill( value )` on an `itk::Size` of `VDimension`
components: every component is set to `value`.  The component type is at least
as wide as `unsigned int`, so the value is kept. -/
def RadiusType.Fill (VDimension : Nat) (value : Nat) : RadiusType :=
  List.replicate VDimension value

/-- A value of `itk::FlatStructuringElement< Dimension >`, as returned by the
library. -/
structure FlatStructuringElement where
  Radius : RadiusType
  deriving DecidableEq, Repr

/-- The enumeration `MergeLabelMapFilter::MethodChoice`. -/
inductive MethodChoice where
  | KEEP
  | AGGREGATE
  | PACK
  | STRICT
  deriving DecidableEq, Repr

/-! ### Filter objects

A property is `none` until the program sets it (the library default applies). -/

/-- An `itk::ImageFileReader`. -/
structure ImageFileReader where
  FileName : Option String := none

/-- An `itk::LabelImageToLabelMapFilter`. -/
structure LabelImageToLabelMapFilter (TInputImage : Type) where
  Input : Option TInputImage := none
  BackgroundValue : Option Nat := none

/-- An `itk::LabelSelectionLabelMapFilter`. -/
structure LabelSelectionLabelMapFilter (TImage : Type) where
  Input : Option TImage := none
  Label : Option Nat := none

/-- An `itk::BinaryMorphologicalClosingImageFilter`. -/
structure BinaryMorphologicalClosingImageFilter where
  Kernel : Option FlatStructuringElement := none

/-- An `itk::ObjectByObjectLabelMapFilter`. -/
structure ObjectByObjectLabelMapFilter (TImage : Type) where
  Input : Option TImage := none
  BinaryInternalOutput : Option Bool := none
  Filter : Option BinaryMorphologicalClosingImageFilter := none

/-- An `itk::MergeLabelMapFilter`, with its inputs 0 and 1. -/
structure MergeLabelMapFilter (TImage : Type) where
  Input0 : Option TImage := none
  Input1 : Option TImage := none
  Method : Option MethodChoice := none

/-- An `itk::LabelUniqueLabelMapFilter`. -/
structure LabelUniqueLabelMapFilter (TImage : Type) where
  Input : Option TImage := none

/-- An `itk::LabelMapToLabelImageFilter`. -/
structure LabelMapToLabelImageFilter (TInputImage : Type) where
  Input : Option TInputImage := none

/-- An `itk::ImageFileWriter`. -/
structure ImageFileWriter (TInputImage : Type) where
  FileName : Option String := none
  Input : Option TInputImage := none

mutual
/-- A data object of type `ImageType`: the output of the filter that produces
it. -/
inductive Image where
  | ofReader (source : ImageFileReader)
  | ofLabelMapToLabelImage (source : LabelMapToLabelImageFilter LabelMap)
/-- A data object of type `LabelMapType`: output number `index` of the filter
that produces it (filters with one output have no index). -/
inductive LabelMap where
  | ofLabelImageToLabelMap (source : LabelImageToLabelMapFilter Image)
  | ofLabelSelection (source : LabelSelectionLabelMapFilter LabelMap) (index : Nat)
  | ofObjectByObject (source : ObjectByObjectLabelMapFilter LabelMap) (index : Nat)
  | ofMerge (source : MergeLabelMapFilter LabelMap)
  | ofLabelUnique (source : LabelUniqueLabelMapFilter LabelMap)
end

/-- The argument of a `SetInput` call. -/
inductive DataObject where
  | image (data : Image)
  | labelMap (data : LabelMap)

/-! ### Setters and `GetOutput`, as the program calls them -/

/-- The call `reader->SetFileName( name )`. -/
def ImageFileReader.SetFileName (self : ImageFileReader) (name : String) : ImageFileReader :=
  { self with FileName := some name }

/-- The call `reader->GetOutput()`. -/
def ImageFileReader.GetOutput (self : ImageFileReader) : Image :=
  .ofReader self

/-- The call `labelMapConverter->SetInput( image )`. -/
def LabelImageToLabelMapFilter.SetInput (self : LabelImageToLabelMapFilter Image)
    (input : Image) : LabelImageToLabelMapFilter Image :=
  { self with Input := some input }

/-- The call `labelMapConverter->SetBackgroundValue( value )`. -/
def LabelImageToLabelMapFilter.SetBackgroundValue (self : LabelImageToLabelMapFilter Image)
    (value : Nat) : LabelImageToLabelMapFilter Image :=
  { self with BackgroundValue := some value }

/-- The call `labelMapConverter->GetOutput()`. -/
def LabelImageToLabelMapFilter.GetOutput (self : LabelImageToLabelMapFilter Image) : LabelMap :=
  .ofLabelImageToLabelMap self

/-- The call `selector->SetInput( labelMap )`. -/
def LabelSelectionLabelMapFilter.SetInput (self : LabelSelectionLabelMapFilter LabelMap)
    (input : LabelMap) : LabelSelectionLabelMapFilter LabelMap :=
  { self with Input := some input }

/-- The call `selector->SetLabel( label )`. -/
def LabelSelectionLabelMapFilter.SetLabel (self : LabelSelectionLabelMapFilter LabelMap)
    (label : Nat) : LabelSelectionLabelMapFilter LabelMap :=
  { self with Label := some label }

/-- The call `selector->GetOutput( index )`. -/
def LabelSelectionLabelMapFilter.GetOutput (self : LabelSelectionLabelMapFilter LabelMap)
    (index : Nat) : LabelMap :=
  .ofLabelSelection self index

/-- The call `objectByObjectLabelMapFilter->SetInput( labelMap )`. -/
def ObjectByObjectLabelMapFilter.SetInput (self : ObjectByObjectLabelMapFilter LabelMap)
    (input : LabelMap) : ObjectByObjectLabelMapFilter LabelMap :=
  { self with Input := some input }

/-- The call `objectByObjectLabelMapFilter->SetBinaryInternalOutput( flag )`. -/
def ObjectByObjectLabelMapFilter.SetBinaryInternalOutput
    (self : ObjectByObjectLabelMapFilter LabelMap) (flag : Bool) :
    ObjectByObjectLabelMapFilter LabelMap :=
  { self with BinaryInternalOutput := some flag }

/-- The call `objectByObjectLabelMapFilter->SetFilter( filter )`. -/
def ObjectByObjectLabelMapFilter.SetFilter (self : ObjectByObjectLabelMapFilter LabelMap)
    (filter : BinaryMorphologicalClosingImageFilter) : ObjectByObjectLabelMapFilter LabelMap :=
  { self with Filter := some filter }

/-- The call `objectByObjectLabelMapFilter->GetOutput( index )`. -/
def ObjectByObjectLabelMapFilter.GetOutput (self : ObjectByObjectLabelMapFilter LabelMap)
    (index : Nat) : LabelMap :=
  .ofObjectByObject self index

/-- The call `merger->SetInput( index, labelMap )`, for the two inputs the record
keeps; another index leaves the record as it is. -/
def MergeLabelMapFilter.SetInput (self : MergeLabelMapFilter LabelMap) (index : Nat)
    (input : LabelMap) : MergeLabelMapFilter LabelMap :=
  match index with
  | 0 => { self with Input0 := some input }
  | 1 => { self with Input1 := some input }
  | _ => self

/-- The call `merger->SetMethod( method )`. -/
def MergeLabelMapFilter.SetMethod (self : MergeLabelMapFilter LabelMap)
    (method : MethodChoice) : MergeLabelMapFilter LabelMap :=
  { self with Method := some method }

/-- The call `merger->GetOutput()`. -/
def MergeLabelMapFilter.GetOutput (self : MergeLabelMapFilter LabelMap) : LabelMap :=
  .ofMerge self

/-- The call `unique->SetInput( labelMap )`. -/
def LabelUniqueLabelMapFilter.SetInput (self : LabelUniqueLabelMapFilter LabelMap)
    (input : LabelMap) : LabelUniqueLabelMapFilter LabelMap :=
  { self with Input := some input }

/-- The call `unique->GetOutput()`. -/
def LabelUniqueLabelMapFilter.GetOutput (self : LabelUniqueLabelMapFilter LabelMap) : LabelMap :=
  .ofLabelUnique self

/-- The call `labelImageConverter->SetInput( labelMap )`. -/
def LabelMapToLabelImageFilter.SetInput (self : LabelMapToLabelImageFilter LabelMap)
    (input : LabelMap) : LabelMapToLabelImageFilter LabelMap :=
  { self with Input := some input }

/-- The call `labelImageConverter->GetOutput()`. -/
def LabelMapToLabelImageFilter.GetOutput (self : LabelMapToLabelImageFilter LabelMap) : Image :=
  .ofLabelMapToLabelImage self

/-- The call `writer->SetFileName( name )`. -/
def ImageFileWriter.SetFileName (self : ImageFileWriter Image) (name : String) :
    ImageFileWriter Image :=
  { self with FileName := some name }

/-- The call `writer->SetInput( image )`. -/
def ImageFileWriter.SetInput (self : ImageFileWriter Image) (input : Image) :
    ImageFileWriter Image :=
  { self with Input := some input }

/-! ### The run of the program -/

/-- The smart pointers `main` declares, by variable name. -/
inductive Obj where
  | reader
  | labelMapConverter
  | selector
  | closingFilter
  | objectByObjectLabelMapFilter
  | merger
  | unique
  | labelImageConverter
  | writer
  deriving DecidableEq, Repr

/-- One call that `main` makes into the C library or the toolkit, with the
values it passes.  `GetOutput` calls are not listed on their own: their result is
the argument of the `SetInput` call they stand in. -/
inductive Call where
  | atoi (nptr : String)
  | New (object : Obj)
  | SetFileName (object : Obj) (name : String)
  | SetInput (object : Obj) (index : Nat) (input : DataObject)
  | SetBackgroundValue (object : Obj) (value : Nat)
  | SetLabel (object : Obj) (label : Nat)
  | Fill (value : Nat)
  | Ball (radius : RadiusType)
  | SetBinaryInternalOutput (object : Obj) (flag : Bool)
  | SetFilter (object : Obj) (filter : BinaryMorphologicalClosingImageFilter)
  | SetMethod (object : Obj) (method : MethodChoice)
  | Update (writer : ImageFileWriter Image)

/-- The state of one run: the text inserted into `std::cerr` by `main`, the calls
made so far (oldest first), the exceptions the library has thrown (each with the
call that threw it), and the writers whose `Update()` has returned normally,
that is, whose file has been written. -/
structure World where
  stderr : String := ""
  calls : List Call := []
  raised : List (Call × Thrown) := []
  written : List (ImageFileWriter Image) := []

/-- The statement `std::cerr << text`. -/
def World.cerr (w : World) (text : String) : World :=
  { w with stderr := w.stderr ++ text }

/-- Record a call. -/
def World.call (w : World) (c : Call) : World :=
  { w with calls := w.calls ++ [c] }

/-- Record that call `c` threw `t`. -/
def World.raise (w : World) (c : Call) (t : Thrown) : World :=
  { w with raised := w.raised ++ [(c, t)] }

/-- Record that `Update()` of `writer` returned normally. -/
def World.wrote (w : World) (writer : ImageFileWriter Image) : World :=
  { w with written := w.written ++ [writer] }

/-- The result of a run: how `main` ended and the final state. -/
structure Run where
  exit : Exit
  final : World

/-- The parts of the C library and of the toolkit whose result `main` depends
on.  `atoi` is the C function; `Ball` is `StructuringElementType::Ball`, which
returns an element or throws; `Update` is `writer->Update()`, which runs the
whole pipeline behind the writer and returns normally or throws. -/
structure Library where
  atoi : String → Int
  Ball : RadiusType → Except Thrown FlatStructuringElement
  Update : ImageFileWriter Image → Except Thrown Unit

/-- The function `main( int argc, char* argv[] )` (Code.cxx lines 30-112). -/
def main (lib : Library) (argc : Int) (argv : Nat → String) : Run :=
  let w : World := {}
  if argc ≠ 5 then
    let w := w.cerr "Usage: "
    let w := w.cerr endl
    let w := w.cerr (argv 0)
    let w := w.cerr " <InputFileName> <OutputFileName> <label> <radius>"
    let w := w.cerr endl
    { exit := .returned EXIT_FAILURE, final := w }
  else
    let inputFileName := argv 1
    let outputFileName := argv 2
    let w := w.call (.atoi (argv 3))
    let label := toPixelType (lib.atoi (argv 3))
    let w := w.call (.atoi (argv 4))
    let radiusValue := toUnsignedInt (lib.atoi (argv 4))
    -- lines 51-53
    let w := w.call (.New .reader)
    let reader : ImageFileReader := {}
    let w := w.call (.SetFileName .reader inputFileName)
    let reader := reader.SetFileName inputFileName
    -- lines 58-61
    let w := w.call (.New .labelMapConverter)
    let labelMapConverter : LabelImageToLabelMapFilter Image := {}
    let w := w.call (.SetInput .labelMapConverter 0 (.image reader.GetOutput))
    let labelMapConverter := labelMapConverter.SetInput reader.GetOutput
    let w := w.call (.SetBackgroundValue .labelMapConverter NumericTraits.Zero)
    let labelMapConverter := labelMapConverter.SetBackgroundValue NumericTraits.Zero
    -- lines 63-66
    let w := w.call (.New .selector)
    let selector : LabelSelectionLabelMapFilter LabelMap := {}
    let w := w.call (.SetInput .selector 0 (.labelMap labelMapConverter.GetOutput))
    let selector := selector.SetInput labelMapConverter.GetOutput
    let w := w.call (.SetLabel .selector label)
    let selector := selector.SetLabel label
    -- lines 68-72: not inside any try block
    let w := w.call (.Fill radiusValue)
    let radius := RadiusType.Fill Dimension radiusValue
    let w := w.call (.Ball radius)
    match lib.Ball radius with
    | .error thrown =>
      let w := w.raise (.Ball radius) thrown
      { exit := .terminated thrown, final := w }
    | .ok _structuringElement =>
      -- lines 74-75
      let w := w.call (.New .closingFilter)
      let closingFilter : BinaryMorphologicalClosingImageFilter := {}
      -- lines 77-81
      let w := w.call (.New .objectByObjectLabelMapFilter)
      let objectByObjectLabelMapFilter : ObjectByObjectLabelMapFilter LabelMap := {}
      let w := w.call (.SetInput .objectByObjectLabelMapFilter 0 (.labelMap (selector.GetOutput 0)))
      let objectByObjectLabelMapFilter := objectByObjectLabelMapFilter.SetInput (selector.GetOutput 0)
      let w := w.call (.SetBinaryInternalOutput .objectByObjectLabelMapFilter true)
      let objectByObjectLabelMapFilter := objectByObjectLabelMapFilter.SetBinaryInternalOutput true
      let w := w.call (.SetFilter .objectByObjectLabelMapFilter closingFilter)
      let objectByObjectLabelMapFilter := objectByObjectLabelMapFilter.SetFilter closingFilter
      -- lines 83-87
      let w := w.call (.New .merger)
      let merger : MergeLabelMapFilter LabelMap := {}
      let w := w.call (.SetInput .merger 0 (.labelMap (objectByObjectLabelMapFilter.GetOutput 0)))
      let merger := merger.SetInput 0 (objectByObjectLabelMapFilter.GetOutput 0)
      let w := w.call (.SetInput .merger 1 (.labelMap (selector.GetOutput 1)))
      let merger := merger.SetInput 1 (selector.GetOutput 1)
      let w := w.call (.SetMethod .merger .KEEP)
      let merger := merger.SetMethod .KEEP
      -- lines 89-91
      let w := w.call (.New .unique)
      let unique : LabelUniqueLabelMapFilter LabelMap := {}
      let w := w.call (.SetInput .unique 0 (.labelMap merger.GetOutput))
      let unique := unique.SetInput merger.GetOutput
      -- lines 93-95
      let w := w.call (.New .labelImageConverter)
      let labelImageConverter : LabelMapToLabelImageFilter LabelMap := {}
      let w := w.call (.SetInput .labelImageConverter 0 (.labelMap unique.GetOutput))
      let labelImageConverter := labelImageConverter.SetInput unique.GetOutput
      -- lines 97-100
      let w := w.call (.New .writer)
      let writer : ImageFileWriter Image := {}
      let w := w.call (.SetFileName .writer outputFileName)
      let writer := writer.SetFileName outputFileName
      let w := w.call (.SetInput .writer 0 (.image labelImageConverter.GetOutput))
      let writer := writer.SetInput labelImageConverter.GetOutput
      -- lines 101-111
      let w := w.call (.Update writer)
      match lib.Update writer with
      | .ok () =>
        let w := w.wrote writer
        { exit := .returned EXIT_SUCCESS, final := w }
      | .error (.itk error) =>
        let w := w.raise (.Update writer) (.itk error)
        let w := w.cerr "Error: "
        let w := w.cerr error.Print
        let w := w.cerr endl
        { exit := .returned EXIT_FAILURE, final := w }
      | .error (.other what) =>
        let w := w.raise (.Update writer) (.other what)
        { exit := .terminated (.other what), final := w }

/-! ### The outcome of `main`, described stage by stage

The names of this section restate what `main` builds, with one function for each
library stage; the lemmas `main_of_*` below prove that `main` computes exactly
this. -/

/-- The usage message of lines 34-37, for the program name `argv0`. -/
def usageMessage (argv0 : String) : String :=
  "Usage: " ++ "\n" ++ argv0 ++ " <InputFileName> <OutputFileName> <label> <radius>" ++ "\n"

/-- Stage `read`: the output of a reader of the file `fileName`. -/
def read (fileName : String) : Image :=
  .ofReader { FileName := some fileName }

/-- Stage `convert`: the label map of `image`, with the given background value. -/
def toLabelMap (backgroundValue : Nat) (image : Image) : LabelMap :=
  .ofLabelImageToLabelMap { Input := some image, BackgroundValue := some backgroundValue }

/-- Stage `select-by-label`: output `index` of the selector of `label` on
`labelMap` (output 0: the objects with that label, output 1: all the others). -/
def select (label : Nat) (labelMap : LabelMap) (index : Nat) : LabelMap :=
  .ofLabelSelection { Input := some labelMap, Label := some label } index

/-- The closing filter as `main` leaves it: created, no property set. -/
def closing : BinaryMorphologicalClosingImageFilter :=
  {}

/-- Stage `per-object filter`: output 0 of the object-by-object filter that runs
`filter` on each object of `labelMap`, with binary internal output. -/
def perObject (filter : BinaryMorphologicalClosingImageFilter) (labelMap : LabelMap) : LabelMap :=
  .ofObjectByObject
    { Input := some labelMap, BinaryInternalOutput := some true, Filter := some filter } 0

/-- Stage `merge` with method `KEEP`: `input0` is input 0 and `input1` is input 1. -/
def mergeKEEP (input0 input1 : LabelMap) : LabelMap :=
  .ofMerge { Input0 := some input0, Input1 := some input1, Method := some .KEEP }

/-- Stage `deduplicate`. -/
def unique (labelMap : LabelMap) : LabelMap :=
  .ofLabelUnique { Input := some labelMap }

/-- Stage `convert-back`. -/
def toLabelImage (labelMap : LabelMap) : Image :=
  .ofLabelMapToLabelImage { Input := some labelMap }

/-- The label map handed to the selector: `toLabelMap(read(argv[1]))` with
background value 0. -/
def convertedInput (argv : Nat → String) : LabelMap :=
  toLabelMap 0 (read (argv 1))

/-- The value of the local `label` (line 48). -/
def labelOf (lib : Library) (argv : Nat → String) : Nat :=
  toPixelType (lib.atoi (argv 3))

/-- The value of the local `radius` after `Fill` (lines 49, 69-70). -/
def radiusOf (lib : Library) (argv : Nat → String) : RadiusType :=
  RadiusType.Fill Dimension (toUnsignedInt (lib.atoi (argv 4)))

/-- The image handed to the writer, as the composition of the stages. -/
def pipelineImage (lib : Library) (argv : Nat → String) : Image :=
  let selected := select (labelOf lib argv) (convertedInput argv) 0
  let unselected := select (labelOf lib argv) (convertedInput argv) 1
  toLabelImage (unique (mergeKEEP (perObject closing selected) unselected))

/-- The writer on which `Update()` is called. -/
def writerOf (lib : Library) (argv : Nat → String) : ImageFileWriter Image :=
  { FileName := some (argv 2), Input := some (pipelineImage lib argv) }

/-- The calls of lines 48-72, the call of `Ball` included. -/
def callsThroughBall (lib : Library) (argv : Nat → String) : List Call :=
  [ .atoi (argv 3),
    .atoi (argv 4),
    .New .reader,
    .SetFileName .reader (argv 1),
    .New .labelMapConverter,
    .SetInput .labelMapConverter 0 (.image (read (argv 1))),
    .SetBackgroundValue .labelMapConverter 0,
    .New .selector,
    .SetInput .selector 0 (.labelMap (convertedInput argv)),
    .SetLabel .selector (labelOf lib argv),
    .Fill (toUnsignedInt (lib.atoi (argv 4))),
    .Ball (radiusOf lib argv) ]

/-- The calls of lines 74-103, made once `Ball` has returned. -/
def callsAfterBall (lib : Library) (argv : Nat → String) : List Call :=
  let selected := select (labelOf lib argv) (convertedInput argv) 0
  let unselected := select (labelOf lib argv) (convertedInput argv) 1
  [ .New .closingFilter,
    .New .objectByObjectLabelMapFilter,
    .SetInput .objectByObjectLabelMapFilter 0 (.labelMap selected),
    .SetBinaryInternalOutput .objectByObjectLabelMapFilter true,
    .SetFilter .objectByObjectLabelMapFilter closing,
    .New .merger,
    .SetInput .merger 0 (.labelMap (perObject closing selected)),
    .SetInput .merger 1 (.labelMap unselected),
    .SetMethod .merger .KEEP,
    .New .unique,
    .SetInput .unique 0 (.labelMap (mergeKEEP (perObject closing selected) unselected)),
    .New .labelImageConverter,
    .SetInput .labelImageConverter 0
      (.labelMap (unique (mergeKEEP (perObject closing selected) unselected))),
    .New .writer,
    .SetFileName .writer (argv 2),
    .SetInput .writer 0 (.image (pipelineImage lib argv)),
    .Update (writerOf lib argv) ]

/-- The labels passed to `SetLabel` during a run, in call order. -/
def Run.labelsSet (r : Run) : List Nat :=
  r.final.calls.filterMap fun
    | .SetLabel _ label => some label
    | _ => none

/-- The background values passed to `SetBackgroundValue` during a run. -/
def Run.backgroundValuesSet (r : Run) : List Nat :=
  r.final.calls.filterMap fun
    | .SetBackgroundValue _ value => some value
    | _ => none

/-- The radii passed to `Ball` during a run, in call order. -/
def Run.radiiPassed (r : Run) : List RadiusType :=
  r.final.calls.filterMap fun
    | .Ball radius => some radius
    | _ => none

/-- The kernels of the filters passed to `SetFilter` during a run (`none`: the
filter was passed with no kernel set). -/
def Run.kernelsSet (r : Run) : List (Option FlatStructuringElement) :=
  r.final.calls.filterMap fun
    | .SetFilter _ filter => some filter.Kernel
    | _ => none

/-- The `SetInput` calls of a run, in call order: receiver, input index and the
data object connected. -/
def Run.inputsSet (r : Run) : List (Obj × Nat × DataObject) :=
  r.final.calls.filterMap fun
    | .SetInput object index input => some (object, index, input)
    | _ => none

/-- The writers on which `Update()` was called during a run. -/
def Run.updatesCalled (r : Run) : List (ImageFileWriter Image) :=
  r.final.calls.filterMap fun
    | .Update writer => some writer
    | _ => none

/-! ### Concrete libraries and arguments, for evaluation -/

/-- The C function `atoi` on text whose value fits an `int`: skip white space, read
an optional sign, read decimal digits up to the first other character. -/
def atoi (nptr : String) : Int :=
  let cs := nptr.toList.dropWhile Char.isWhitespace
  let signed : Bool × List Char :=
    match cs with
    | '-' :: rest => (true, rest)
    | '+' :: rest => (false, rest)
    | rest => (false, rest)
  let v : Nat :=
    (signed.2.takeWhile Char.isDigit).foldl (fun acc c => 10 * acc + (c.toNat - 48)) 0
  if signed.1 then -(v : Int) else (v : Int)

/-- A library in which nothing throws. -/
def quietLibrary : Library where
  atoi := atoi
  Ball := fun radius => .ok { Radius := radius }
  Update := fun _ => .ok ()

/-- A library whose `Ball` throws an `itk::ExceptionObject`. -/
def ballThrowsLibrary : Library where
  atoi := atoi
  Ball := fun _ => .error (.itk { Print := "itk::ExceptionObject: radius too large" })
  Update := fun _ => .ok ()

/-- A library whose writer `Update()` throws an `itk::ExceptionObject`. -/
def updateThrowsLibrary : Library where
  atoi := atoi
  Ball := fun radius => .ok { Radius := radius }
  Update := fun _ => .error (.itk { Print := "itk::ImageFileReaderException: file not found" })

/-- A library whose writer `Update()` throws `std::bad_alloc`. -/
def updateBadAllocLibrary : Library where
  atoi := atoi
  Ball := fun radius => .ok { Radius := radius }
  Update := fun _ => .error (.other "std::bad_alloc")

/-- An argument vector: `prog in.png out.png 3 1`. -/
def sampleArgv (i : Nat) : String :=
  ["prog", "in.png", "out.png", "3", "1"].getD i ""

/-- An argument vector whose label is `256` and whose radius is `-1`. -/
def wrappingArgv (i : Nat) : String :=
  ["prog", "in.png", "out.png", "256", "-1"].getD i ""

/-- An argument vector whose label is `-3`. -/
def negativeLabelArgv (i : Nat) : String :=
  ["prog", "in.png", "out.png", "-3", "1"].getD i ""

/-! ### Lemmas: the five ways `main` ends -/

/-- A text that starts with a non-empty text is not empty. -/
theorem append_ne_empty_of_left (a s : String) (ha : a ≠ "") : a ++ s ≠ "" := by
  intro h
  apply ha
  have h1 := congrArg String.data h
  rw [String.data_append] at h1
  have h2 : a.data = [] := by
    have h3 : ("" : String).data = [] := rfl
    rw [h3] at h1
    exact (List.append_eq_nil.mp h1).1
  exact String.ext h2

/-- The usage message is not the empty text. -/
theorem usageMessage_ne_empty (argv0 : String) : usageMessage argv0 ≠ "" := by
  unfold usageMessage
  exact append_ne_empty_of_left _ _ (append_ne_empty_of_left _ _
    (append_ne_empty_of_left _ _ (by decide)))

/-- An error line is not the empty text. -/
theorem errorLine_ne_empty (text : String) : "Error: " ++ text ++ "\n" ≠ "" :=
  append_ne_empty_of_left _ _ (append_ne_empty_of_left _ _ (by decide))

/-- Wrong argument count: usage message, exit code 1, nothing else. -/
theorem main_of_argc_ne_five (lib : Library) (argc : Int) (argv : Nat → String)
    (h : argc ≠ 5) :
    main lib argc argv =
      { exit := .returned 1, final := { stderr := usageMessage (argv 0) } } := by
  simp [main, h, World.cerr, endl, EXIT_FAILURE, usageMessage]

/-- `Ball` throws: the exception leaves `main`. -/
theorem main_of_ball_error (lib : Library) (argv : Nat → String) (thrown : Thrown)
    (hB : lib.Ball (radiusOf lib argv) = .error thrown) :
    main lib 5 argv =
      { exit := .terminated thrown,
        final := { calls := callsThroughBall lib argv,
                   raised := [(.Ball (radiusOf lib argv), thrown)] } } := by
  unfold radiusOf at hB
  simp [main, hB, World.call, World.raise, callsThroughBall, radiusOf, labelOf, convertedInput,
    toLabelMap, read, NumericTraits.Zero, ImageFileReader.SetFileName, ImageFileReader.GetOutput,
    LabelImageToLabelMapFilter.SetInput, LabelImageToLabelMapFilter.SetBackgroundValue,
    LabelImageToLabelMapFilter.GetOutput]

/-- The run of `main` once `Ball` has returned, up to the call of `Update()`. -/
theorem main_of_ball_ok (lib : Library) (argv : Nat → String)
    (element : FlatStructuringElement)
    (hB : lib.Ball (radiusOf lib argv) = .ok element) :
    main lib 5 argv =
      match lib.Update (writerOf lib argv) with
      | .ok () =>
        { exit := .returned 0,
          final := { calls := callsThroughBall lib argv ++ callsAfterBall lib argv,
                     written := [writerOf lib argv] } }
      | .error (.itk error) =>
        { exit := .returned 1,
          final := { stderr := "Error: " ++ error.Print ++ "\n",
                     calls := callsThroughBall lib argv ++ callsAfterBall lib argv,
                     raised := [(.Update (writerOf lib argv), .itk error)] } }
      | .error (.other what) =>
        { exit := .terminated (.other what),
          final := { calls := callsThroughBall lib argv ++ callsAfterBall lib argv,
                     raised := [(.Update (writerOf lib argv), .other what)] } } := by
  unfold radiusOf at hB
  simp only [main, ne_eq, not_true_eq_false, if_false, hB, writerOf, World.call, World.raise,
    World.cerr, World.wrote, callsThroughBall, callsAfterBall,
    radiusOf, labelOf, convertedInput, pipelineImage, toLabelImage, unique, mergeKEEP, perObject,
    closing, select, endl, EXIT_SUCCESS, EXIT_FAILURE,
    toLabelMap, read, NumericTraits.Zero, ImageFileReader.SetFileName, ImageFileReader.GetOutput,
    LabelImageToLabelMapFilter.SetInput, LabelImageToLabelMapFilter.SetBackgroundValue,
    LabelImageToLabelMapFilter.GetOutput, LabelSelectionLabelMapFilter.SetInput,
    LabelSelectionLabelMapFilter.SetLabel, LabelSelectionLabelMapFilter.GetOutput,
    ObjectByObjectLabelMapFilter.SetInput, ObjectByObjectLabelMapFilter.SetBinaryInternalOutput,
    ObjectByObjectLabelMapFilter.SetFilter, ObjectByObjectLabelMapFilter.GetOutput,
    MergeLabelMapFilter.SetInput, MergeLabelMapFilter.SetMethod, MergeLabelMapFilter.GetOutput,
    LabelUniqueLabelMapFilter.SetInput, LabelUniqueLabelMapFilter.GetOutput,
    LabelMapToLabelImageFilter.SetInput, LabelMapToLabelImageFilter.GetOutput,
    ImageFileWriter.SetFileName, ImageFileWriter.SetInput]
  split <;> simp

/-- The writer's `Update()` returns: exit code 0, the file is written. -/
theorem main_of_update_ok (lib : Library) (argv : Nat → String)
    (element : FlatStructuringElement)
    (hB : lib.Ball (radiusOf lib argv) = .ok element)
    (hU : lib.Update (writerOf lib argv) = .ok ()) :
    main lib 5 argv =
      { exit := .returned 0,
        final := { calls := callsThroughBall lib argv ++ callsAfterBall lib argv,
                   written := [writerOf lib argv] } } := by
  rw [main_of_ball_ok lib argv element hB, hU]

/-- The writer's `Update()` throws an `itk::ExceptionObject`: caught, printed,
exit code 1. -/
theorem main_of_update_itk (lib : Library) (argv : Nat → String)
    (element : FlatStructuringElement) (error : ExceptionObject)
    (hB : lib.Ball (radiusOf lib argv) = .ok element)
    (hU : lib.Update (writerOf lib argv) = .error (.itk error)) :
    main lib 5 argv =
      { exit := .returned 1,
        final := { stderr := "Error: " ++ error.Print ++ "\n",
                   calls := callsThroughBall lib argv ++ callsAfterBall lib argv,
                   raised := [(.Update (writerOf lib argv), .itk error)] } } := by
  rw [main_of_ball_ok lib argv element hB, hU]

/-- The writer's `Update()` throws something else: it leaves `main`. -/
theorem main_of_update_other (lib : Library) (argv : Nat → String)
    (element : FlatStructuringElement) (what : String)
    (hB : lib.Ball (radiusOf lib argv) = .ok element)
    (hU : lib.Update (writerOf lib argv) = .error (.other what)) :
    main lib 5 argv =
      { exit := .terminated (.other what),
        final := { calls := callsThroughBall lib argv ++ callsAfterBall lib argv,
                   raised := [(.Update (writerOf lib argv), .other what)] } } := by
  rw [main_of_ball_ok lib argv element hB, hU]

/-- With `argc = 5`, `main` ends in one of four ways. -/
theorem main_cases (lib : Library) (argv : Nat → String) :
    (∃ thrown, lib.Ball (radiusOf lib argv) = .error thrown ∧
      main lib 5 argv =
        { exit := .terminated thrown,
          final := { calls := callsThroughBall lib argv,
                     raised := [(.Ball (radiusOf lib argv), thrown)] } }) ∨
    (lib.Update (writerOf lib argv) = .ok () ∧
      main lib 5 argv =
        { exit := .returned 0,
          final := { calls := callsThroughBall lib argv ++ callsAfterBall lib argv,
                     written := [writerOf lib argv] } }) ∨
    (∃ error, lib.Update (writerOf lib argv) = .error (.itk error) ∧
      main lib 5 argv =
        { exit := .returned 1,
          final := { stderr := "Error: " ++ error.Print ++ "\n",
                     calls := callsThroughBall lib argv ++ callsAfterBall lib argv,
                     raised := [(.Update (writerOf lib argv), .itk error)] } }) ∨
    (∃ what, lib.Update (writerOf lib argv) = .error (.other what) ∧
      main lib 5 argv =
        { exit := .terminated (.other what),
          final := { calls := callsThroughBall lib argv ++ callsAfterBall lib argv,
                     raised := [(.Update (writerOf lib argv), .other what)] } }) := by
  rcases hB : lib.Ball (radiusOf lib argv) with thrown | element
  · exact Or.inl ⟨thrown, rfl, main_of_ball_error lib argv thrown hB⟩
  · rcases hU : lib.Update (writerOf lib argv) with thrown | u
    · cases thrown with
      | itk error =>
        exact Or.inr (Or.inr (Or.inl ⟨error, rfl, main_of_update_itk lib argv element error hB hU⟩))
      | other what =>
        exact Or.inr (Or.inr (Or.inr ⟨what, rfl, main_of_update_other lib argv element what hB hU⟩))
    · exact Or.inr (Or.inl ⟨rfl, main_of_update_ok lib argv element hB hU⟩)

/-- With `argc = 5`, `SetLabel` is called once, with the local `label`. -/
theorem labelsSet_main (lib : Library) (argv : Nat → String) :
    (main lib 5 argv).labelsSet = [labelOf lib argv] := by
  rcases main_cases lib argv with ⟨t, _, hm⟩ | ⟨_, hm⟩ | ⟨e, _, hm⟩ | ⟨x, _, hm⟩ <;>
  · rw [hm]
    simp [Run.labelsSet, callsThroughBall, callsAfterBall]

/-- With `argc = 5`, `SetBackgroundValue` is called once, with 0. -/
theorem backgroundValuesSet_main (lib : Library) (argv : Nat → String) :
    (main lib 5 argv).backgroundValuesSet = [0] := by
  rcases main_cases lib argv with ⟨t, _, hm⟩ | ⟨_, hm⟩ | ⟨e, _, hm⟩ | ⟨x, _, hm⟩ <;>
  · rw [hm]
    simp [Run.backgroundValuesSet, callsThroughBall, callsAfterBall]

/-- With `argc = 5`, `Ball` is called once, with the local `radius`. -/
theorem radiiPassed_main (lib : Library) (argv : Nat → String) :
    (main lib 5 argv).radiiPassed = [radiusOf lib argv] := by
  rcases main_cases lib argv with ⟨t, _, hm⟩ | ⟨_, hm⟩ | ⟨e, _, hm⟩ | ⟨x, _, hm⟩ <;>
  · rw [hm]
    simp [Run.radiiPassed, callsThroughBall, callsAfterBall]

/-- Once `Ball` has returned, the closing filter is handed to the object-by-object
filter with no kernel set: the structuring element built on line 72 is not
passed to any filter. -/
theorem kernelsSet_main_of_ball_ok (lib : Library) (argv : Nat → String)
    (element : FlatStructuringElement)
    (hB : lib.Ball (radiusOf lib argv) = .ok element) :
    (main lib 5 argv).kernelsSet = [none] := by
  rw [main_of_ball_ok lib argv element hB]
  split <;> simp [Run.kernelsSet, callsThroughBall, callsAfterBall, closing]

/-! ### The claims -/

/-- C1: when `argc` is not 5, `main` returns `EXIT_FAILURE` (1) and the text on
standard error is exactly `Usage: `, a line feed, `argv[0]` followed by
` <InputFileName> <OutputFileName> <label> <radius>`, and a line feed. -/
theorem main_usage_of_argc_ne_five (lib : Library) (argc : Int) (argv : Nat → String)
    (h : argc ≠ 5) :
    (main lib argc argv).exit = .returned EXIT_FAILURE ∧
    EXIT_FAILURE = 1 ∧
    (main lib argc argv).final.stderr =
      "Usage: " ++ "\n" ++ argv 0 ++ " <InputFileName> <OutputFileName> <label> <radius>" ++ "\n" := by
  simp [main, h, World.cerr, endl, EXIT_FAILURE]

/-- Witness of C1 at `argc = 1`. -/
theorem main_usage_of_argc_ne_five_witness :
    (1 : Int) ≠ 5 ∧
    (main quietLibrary 1 sampleArgv).exit = .returned EXIT_FAILURE ∧
    EXIT_FAILURE = 1 ∧
    (main quietLibrary 1 sampleArgv).final.stderr =
      "Usage: " ++ "\n" ++ sampleArgv 0 ++ " <InputFileName> <OutputFileName> <label> <radius>"
        ++ "\n" :=
  ⟨by decide, main_usage_of_argc_ne_five quietLibrary 1 sampleArgv (by decide)⟩

/-- C2: with `argc = 5`, when the library throws nothing during the run (neither
`Ball` nor the writer's `Update()`), `main` returns `EXIT_SUCCESS` (0), the
writer on which `Update()` was called has file name `argv[2]`, its `Update()`
returned and it is the one writer recorded as having written its file, and
nothing is on standard error. -/
theorem main_success_of_no_exception (lib : Library) (argv : Nat → String)
    (h : (main lib 5 argv).final.raised = []) :
    (main lib 5 argv).exit = .returned EXIT_SUCCESS ∧
    EXIT_SUCCESS = 0 ∧
    (∃ writer, (main lib 5 argv).updatesCalled = [writer] ∧
      lib.Update writer = .ok () ∧
      writer.FileName = some (argv 2) ∧
      (main lib 5 argv).final.written = [writer]) ∧
    (main lib 5 argv).final.stderr = "" := by
  rcases main_cases lib argv with ⟨t, _, hm⟩ | ⟨hU, hm⟩ | ⟨e, _, hm⟩ | ⟨x, _, hm⟩
  · rw [hm] at h; simp at h
  · rw [hm]
    refine ⟨rfl, rfl, ⟨writerOf lib argv, ?_, hU, rfl, rfl⟩, rfl⟩
    simp [Run.updatesCalled, callsThroughBall, callsAfterBall]
  · rw [hm] at h; simp at h
  · rw [hm] at h; simp at h

/-- Witness of C2: the quiet library on `prog in.png out.png 3 1`. -/
theorem main_success_of_no_exception_witness :
    (main quietLibrary 5 sampleArgv).final.raised = [] ∧
    (main quietLibrary 5 sampleArgv).exit = .returned EXIT_SUCCESS ∧
    EXIT_SUCCESS = 0 ∧
    (∃ writer, (main quietLibrary 5 sampleArgv).updatesCalled = [writer] ∧
      quietLibrary.Update writer = .ok () ∧
      writer.FileName = some (sampleArgv 2) ∧
      (main quietLibrary 5 sampleArgv).final.written = [writer]) ∧
    (main quietLibrary 5 sampleArgv).final.stderr = "" :=
  ⟨rfl, main_success_of_no_exception quietLibrary sampleArgv rfl⟩

/-- C3 fails as stated: a library exception can leave `main` uncaught.  When
`Ball` throws an `itk::ExceptionObject` (here on the radius `-1`, which is
4294967295 in both dimensions), the library has raised an exception, nothing is
printed and `main` does not return 1; the same happens when the writer's
`Update()` throws an exception that is not an `itk::ExceptionObject`. -/
theorem library_exception_escapes_main :
    (main ballThrowsLibrary 5 wrappingArgv).final.raised =
      [(.Ball [4294967295, 4294967295],
        .itk { Print := "itk::ExceptionObject: radius too large" })] ∧
    (main ballThrowsLibrary 5 wrappingArgv).exit =
      .terminated (.itk { Print := "itk::ExceptionObject: radius too large" }) ∧
    (main ballThrowsLibrary 5 wrappingArgv).exit ≠ .returned EXIT_FAILURE ∧
    (main ballThrowsLibrary 5 wrappingArgv).final.stderr = "" ∧
    (main updateBadAllocLibrary 5 sampleArgv).final.raised.map Prod.snd =
      [.other "std::bad_alloc"] ∧
    (main updateBadAllocLibrary 5 sampleArgv).exit = .terminated (.other "std::bad_alloc") ∧
    (main updateBadAllocLibrary 5 sampleArgv).exit ≠ .returned EXIT_FAILURE ∧
    (main updateBadAllocLibrary 5 sampleArgv).final.stderr = "" := by
  refine ⟨rfl, rfl, by decide, rfl, rfl, rfl, by decide, rfl⟩

/-- C3, amended: with `argc = 5`, an `itk::ExceptionObject` thrown by the writer's
`Update()` is caught in `main`: the text on standard error is `Error: `, the
exception's print-out and a line feed, `main` returns `EXIT_FAILURE` (1), and it
is the only exception of the run. -/
theorem main_catches_itk_exception_of_update (lib : Library) (argv : Nat → String)
    (writer : ImageFileWriter Image) (error : ExceptionObject)
    (h : (Call.Update writer, Thrown.itk error) ∈ (main lib 5 argv).final.raised) :
    (main lib 5 argv).exit = .returned EXIT_FAILURE ∧
    EXIT_FAILURE = 1 ∧
    (main lib 5 argv).final.stderr = "Error: " ++ error.Print ++ "\n" ∧
    (main lib 5 argv).final.raised = [(.Update writer, .itk error)] := by
  rcases main_cases lib argv with ⟨t, _, hm⟩ | ⟨_, hm⟩ | ⟨e, _, hm⟩ | ⟨x, _, hm⟩
  · rw [hm] at h; simp at h
  · rw [hm] at h; simp at h
  · rw [hm] at h ⊢
    simp only [List.mem_singleton, Prod.mk.injEq, Call.Update.injEq, Thrown.itk.injEq] at h
    obtain ⟨hw, he⟩ := h
    subst hw he
    exact ⟨rfl, rfl, rfl, rfl⟩
  · rw [hm] at h; simp at h

/-- Witness of amended C3: the writer's `Update()` throws a reader exception. -/
theorem main_catches_itk_exception_of_update_witness :
    (Call.Update (writerOf updateThrowsLibrary sampleArgv),
        Thrown.itk { Print := "itk::ImageFileReaderException: file not found" }) ∈
      (main updateThrowsLibrary 5 sampleArgv).final.raised ∧
    (main updateThrowsLibrary 5 sampleArgv).exit = .returned EXIT_FAILURE ∧
    EXIT_FAILURE = 1 ∧
    (main updateThrowsLibrary 5 sampleArgv).final.stderr =
      "Error: " ++ "itk::ImageFileReaderException: file not found" ++ "\n" ∧
    (main updateThrowsLibrary 5 sampleArgv).final.raised =
      [(.Update (writerOf updateThrowsLibrary sampleArgv),
        .itk { Print := "itk::ImageFileReaderException: file not found" })] :=
  have h : (Call.Update (writerOf updateThrowsLibrary sampleArgv),
        Thrown.itk { Print := "itk::ImageFileReaderException: file not found" }) ∈
      (main updateThrowsLibrary 5 sampleArgv).final.raised := List.mem_singleton.mpr rfl
  ⟨h, main_catches_itk_exception_of_update updateThrowsLibrary sampleArgv _ _ h⟩

/-- C6: when `main` returns `code`, the code is 0 or 1; it is 1 exactly when the
usage message or an error line was written to standard error (equivalently,
when standard error is not empty); it is 0 exactly when the writer's `Update()`
was called and returned without an exception, so that the file was written. -/
theorem main_exit_code_iff (lib : Library) (argc : Int) (argv : Nat → String) (code : Int)
    (h : (main lib argc argv).exit = .returned code) :
    (code = 0 ∨ code = 1) ∧
    (code = 1 ↔ ((main lib argc argv).final.stderr = usageMessage (argv 0) ∨
      ∃ error : ExceptionObject,
        (main lib argc argv).final.stderr = "Error: " ++ error.Print ++ "\n")) ∧
    (code = 1 ↔ (main lib argc argv).final.stderr ≠ "") ∧
    (code = 0 ↔ ∃ writer, (main lib argc argv).updatesCalled = [writer] ∧
      lib.Update writer = .ok () ∧ (main lib argc argv).final.written = [writer]) := by
  by_cases hc : argc = 5
  · subst hc
    rcases main_cases lib argv with ⟨t, _, hm⟩ | ⟨hU, hm⟩ | ⟨e, hU, hm⟩ | ⟨x, _, hm⟩
    · rw [hm] at h; simp at h
    · rw [hm] at h ⊢
      simp only [Exit.returned.injEq] at h
      subst h
      refine ⟨Or.inl rfl, ?_, ?_, ?_⟩
      · simp only [zero_ne_one, false_iff, not_or, not_exists]
        exact ⟨fun h0 => usageMessage_ne_empty _ h0.symm,
          fun error h0 => errorLine_ne_empty _ h0.symm⟩
      · simp
      · simp only [true_iff]
        refine ⟨writerOf lib argv, ?_, hU, rfl⟩
        simp [Run.updatesCalled, callsThroughBall, callsAfterBall]
    · rw [hm] at h ⊢
      simp only [Exit.returned.injEq] at h
      subst h
      refine ⟨Or.inr rfl, ?_, ?_, ?_⟩
      · simp only [true_iff]
        exact Or.inr ⟨e, rfl⟩
      · simp only [true_iff]
        exact errorLine_ne_empty _
      · simp
    · rw [hm] at h; simp at h
  · rw [main_of_argc_ne_five lib argc argv hc] at h ⊢
    simp only [Exit.returned.injEq] at h
    subst h
    refine ⟨Or.inr rfl, ?_, ?_, ?_⟩
    · simp
    · simp only [true_iff]
      exact usageMessage_ne_empty _
    · simp [Run.updatesCalled]

/-- Witness of C6: the quiet library on `prog in.png out.png 3 1` returns 0. -/
theorem main_exit_code_iff_witness :
    (main quietLibrary 5 sampleArgv).exit = .returned 0 ∧
    ((0 : Int) = 0 ∨ (0 : Int) = 1) ∧
    ((0 : Int) = 1 ↔ ((main quietLibrary 5 sampleArgv).final.stderr = usageMessage (sampleArgv 0) ∨
      ∃ error : ExceptionObject,
        (main quietLibrary 5 sampleArgv).final.stderr = "Error: " ++ error.Print ++ "\n")) ∧
    ((0 : Int) = 1 ↔ (main quietLibrary 5 sampleArgv).final.stderr ≠ "") ∧
    ((0 : Int) = 0 ↔ ∃ writer, (main quietLibrary 5 sampleArgv).updatesCalled = [writer] ∧
      quietLibrary.Update writer = .ok () ∧
      (main quietLibrary 5 sampleArgv).final.written = [writer]) :=
  ⟨rfl, main_exit_code_iff quietLibrary 5 sampleArgv 0 rfl⟩

/-- C10: when `argc` is not 5, `main` returns before it makes any call into the C
library or the toolkit (no `atoi`, no object created, no `Ball`, no `Update()`):
no exception is raised, no file is written, standard error holds the usage
message, the exit code is `EXIT_FAILURE`, and the whole result is the same
whatever the library would have done. -/
theorem main_no_call_of_argc_ne_five (lib : Library) (argc : Int) (argv : Nat → String)
    (h : argc ≠ 5) :
    (main lib argc argv).final.calls = [] ∧
    (main lib argc argv).final.raised = [] ∧
    (main lib argc argv).final.written = [] ∧
    (main lib argc argv).final.stderr = usageMessage (argv 0) ∧
    (main lib argc argv).exit = .returned EXIT_FAILURE ∧
    ∀ lib2 : Library, main lib2 argc argv = main lib argc argv := by
  refine ⟨?_, ?_, ?_, ?_, ?_, ?_⟩
  · rw [main_of_argc_ne_five lib argc argv h]
  · rw [main_of_argc_ne_five lib argc argv h]
  · rw [main_of_argc_ne_five lib argc argv h]
  · rw [main_of_argc_ne_five lib argc argv h]
  · rw [main_of_argc_ne_five lib argc argv h]; rfl
  · intro lib2
    rw [main_of_argc_ne_five lib argc argv h, main_of_argc_ne_five lib2 argc argv h]

/-- Witness of C10 at `argc = 3`, with a library that would throw. -/
theorem main_no_call_of_argc_ne_five_witness :
    (3 : Int) ≠ 5 ∧
    (main ballThrowsLibrary 3 sampleArgv).final.calls = [] ∧
    (main ballThrowsLibrary 3 sampleArgv).final.raised = [] ∧
    (main ballThrowsLibrary 3 sampleArgv).final.written = [] ∧
    (main ballThrowsLibrary 3 sampleArgv).final.stderr = usageMessage (sampleArgv 0) ∧
    (main ballThrowsLibrary 3 sampleArgv).exit = .returned EXIT_FAILURE ∧
    ∀ lib2 : Library, main lib2 3 sampleArgv = main ballThrowsLibrary 3 sampleArgv :=
  ⟨by decide, main_no_call_of_argc_ne_five ballThrowsLibrary 3 sampleArgv (by decide)⟩

/-- C7: with `argc = 5`, every `SetInput` call of a run and every writer on which
`Update()` is called agree with the composition
`toLabelImage(unique(mergeKEEP(perObject(closing, selected), unselected)))`, with
`selected` and `unselected` the outputs 0 and 1 of the selector of the parsed
label on `toLabelMap(read(argv[1]))`, background value 0: the `SetInput` calls
are an initial part of the eight listed, and a writer updated has file name
`argv[2]` and that image as input.  Once the structuring element is built
(`Ball` did not throw), all eight connections are made, in this order, and
`Update()` is called on that one writer: the object-by-object filter receives
only the selector's output 0, and the selector's output 1 is connected to input
1 of the merge directly. -/
theorem main_pipeline_wiring (lib : Library) (argv : Nat → String) :
    let label := toPixelType (lib.atoi (argv 3))
    let labelMap := toLabelMap 0 (read (argv 1))
    let selected := select label labelMap 0
    let unselected := select label labelMap 1
    let image := toLabelImage (unique (mergeKEEP (perObject closing selected) unselected))
    let connections : List (Obj × Nat × DataObject) :=
      [ (.labelMapConverter, 0, .image (read (argv 1))),
        (.selector, 0, .labelMap labelMap),
        (.objectByObjectLabelMapFilter, 0, .labelMap selected),
        (.merger, 0, .labelMap (perObject closing selected)),
        (.merger, 1, .labelMap unselected),
        (.unique, 0, .labelMap (mergeKEEP (perObject closing selected) unselected)),
        (.labelImageConverter, 0,
          .labelMap (unique (mergeKEEP (perObject closing selected) unselected))),
        (.writer, 0, .image image) ]
    (∃ rest, connections = (main lib 5 argv).inputsSet ++ rest) ∧
    (∀ writer ∈ (main lib 5 argv).updatesCalled,
      writer = { FileName := some (argv 2), Input := some image }) ∧
    (main lib 5 argv).backgroundValuesSet = [0] ∧
    (main lib 5 argv).labelsSet = [label] ∧
    ((∀ radius thrown, (Call.Ball radius, thrown) ∉ (main lib 5 argv).final.raised) →
      (main lib 5 argv).inputsSet = connections ∧
      (main lib 5 argv).updatesCalled = [{ FileName := some (argv 2), Input := some image }]) := by
  intro label labelMap selected unselected image connections
  have hfull : ∀ final : World,
      final.calls = callsThroughBall lib argv ++ callsAfterBall lib argv →
      ∀ exit : Exit,
      (Run.mk exit final).inputsSet = connections ∧
      (Run.mk exit final).updatesCalled =
        [{ FileName := some (argv 2), Input := some image }] := by
    intro final hcalls exit
    constructor
    · simp [Run.inputsSet, hcalls, callsThroughBall, callsAfterBall, writerOf, pipelineImage,
        convertedInput, labelOf, connections, image, selected, unselected, labelMap, label]
    · simp [Run.updatesCalled, hcalls, callsThroughBall, callsAfterBall, writerOf, pipelineImage,
        convertedInput, labelOf, image, selected, unselected, labelMap, label]
  refine ⟨?_, ?_, backgroundValuesSet_main lib argv, labelsSet_main lib argv, ?_⟩
  · rcases main_cases lib argv with ⟨t, _, hm⟩ | ⟨_, hm⟩ | ⟨e, _, hm⟩ | ⟨x, _, hm⟩
    · rw [hm]
      refine ⟨connections.drop 2, ?_⟩
      simp [Run.inputsSet, callsThroughBall, convertedInput, connections, labelMap]
    all_goals
      rw [hm]
      exact ⟨[], by rw [(hfull _ rfl _).1, List.append_nil]⟩
  · rcases main_cases lib argv with ⟨t, _, hm⟩ | ⟨_, hm⟩ | ⟨e, _, hm⟩ | ⟨x, _, hm⟩
    · rw [hm]
      simp [Run.updatesCalled, callsThroughBall]
    all_goals
      rw [hm, (hfull _ rfl _).2]
      intro writer hw
      exact List.mem_singleton.mp hw
  · intro h
    rcases main_cases lib argv with ⟨t, _, hm⟩ | ⟨_, hm⟩ | ⟨e, _, hm⟩ | ⟨x, _, hm⟩
    · rw [hm] at h
      exact absurd (List.mem_singleton.mpr rfl) (h (radiusOf lib argv) t)
    all_goals
      rw [hm]
      exact hfull _ rfl _

/-- Witness of C7: the quiet library on `prog in.png out.png 3 1`; the writer's
input is the composition on `in.png` with label 3. -/
theorem main_pipeline_wiring_witness :
    (∀ radius thrown,
      (Call.Ball radius, thrown) ∉ (main quietLibrary 5 sampleArgv).final.raised) ∧
    (main quietLibrary 5 sampleArgv).updatesCalled =
      [{ FileName := some "out.png",
         Input := some (toLabelImage (unique (mergeKEEP
           (perObject closing (select 3 (toLabelMap 0 (read "in.png")) 0))
           (select 3 (toLabelMap 0 (read "in.png")) 1)))) }] :=
  have h : ∀ radius thrown,
      (Call.Ball radius, thrown) ∉ (main quietLibrary 5 sampleArgv).final.raised :=
    fun _ _ hmem => List.not_mem_nil _ hmem
  ⟨h, ((main_pipeline_wiring quietLibrary sampleArgv).2.2.2.2 h).2⟩

/-- C8: with `argc = 5`, when `atoi( argv[3] )` is `n`, the one label passed to
the selector is `n` reduced modulo 256 into 0..255; arguments whose values
differ by a multiple of 256 pass the same label; a negative `n` whose absolute
value is not a multiple of 256 passes `256 - (|n| mod 256)`; a multiple of 256
passes 0, which is the background value passed to the converter. -/
theorem main_label_mod_256 (lib : Library) (argv : Nat → String) (n : Int)
    (hn : lib.atoi (argv 3) = n) :
    (main lib 5 argv).labelsSet = [(n % 256).toNat] ∧
    (n % 256).toNat < 256 ∧
    (∀ (argv2 : Nat → String) (k : Int), lib.atoi (argv2 3) = n + 256 * k →
      (main lib 5 argv2).labelsSet = (main lib 5 argv).labelsSet) ∧
    (n < 0 → n.natAbs % 256 ≠ 0 →
      (main lib 5 argv).labelsSet = [256 - n.natAbs % 256]) ∧
    (n % 256 = 0 →
      (main lib 5 argv).labelsSet = [0] ∧ (main lib 5 argv).backgroundValuesSet = [0]) := by
  have hl : (main lib 5 argv).labelsSet = [(n % 256).toNat] := by
    rw [labelsSet_main, labelOf, toPixelType, hn]
  refine ⟨hl, by omega, ?_, ?_, ?_⟩
  · intro argv2 k hk
    rw [hl, labelsSet_main, labelOf, toPixelType, hk]
    have : ((n + 256 * k) % 256).toNat = (n % 256).toNat := by omega
    rw [this]
  · intro hneg hnz
    rw [hl]
    have : (n % 256).toNat = 256 - n.natAbs % 256 := by omega
    rw [this]
  · intro hz
    refine ⟨?_, backgroundValuesSet_main lib argv⟩
    rw [hl, hz]
    rfl

/-- Witness of C8: the label argument `256` passes the label 0. -/
theorem main_label_mod_256_witness :
    quietLibrary.atoi (wrappingArgv 3) = 256 ∧
    (main quietLibrary 5 wrappingArgv).labelsSet = [0] ∧
    (main quietLibrary 5 wrappingArgv).backgroundValuesSet = [0] :=
  ⟨rfl, (main_label_mod_256 quietLibrary wrappingArgv 256 rfl).2.2.2.2 (by decide)⟩

/-- C9: with `argc = 5`, when `atoi( argv[4] )` is the `int` value `n`, `Ball` is
called once, on a radius of two components, both equal to `n` modulo `2 ^ 32`:
that is `n` when `n` is not negative and `2 ^ 32 - |n|`, at least `2 ^ 31`,
when `n` is negative.  The program has no check of its own on the radius: with
a negative `n` too, when the library throws nothing, `main` returns
`EXIT_SUCCESS`. -/
theorem main_radius_mod_two_pow_32 (lib : Library) (argv : Nat → String) (n : Int)
    (hn : lib.atoi (argv 4) = n) (hmin : INT_MIN ≤ n) (hmax : n ≤ INT_MAX) :
    (main lib 5 argv).radiiPassed = [[(n % 4294967296).toNat, (n % 4294967296).toNat]] ∧
    (0 ≤ n → ((n % 4294967296).toNat : Int) = n) ∧
    (n < 0 → (n % 4294967296).toNat = 4294967296 - n.natAbs ∧
      2147483648 ≤ (n % 4294967296).toNat) ∧
    (n < 0 → (main lib 5 argv).final.raised = [] →
      (main lib 5 argv).exit = .returned EXIT_SUCCESS) := by
  unfold INT_MIN at hmin
  unfold INT_MAX at hmax
  refine ⟨?_, by omega, ?_, ?_⟩
  · rw [radiiPassed_main, radiusOf, toUnsignedInt, hn]
    rfl
  · intro hneg
    constructor <;> omega
  · intro _ hr
    rcases main_cases lib argv with ⟨t, _, hm⟩ | ⟨_, hm⟩ | ⟨e, _, hm⟩ | ⟨x, _, hm⟩
    · rw [hm] at hr; simp at hr
    · rw [hm]; rfl
    · rw [hm] at hr; simp at hr
    · rw [hm] at hr; simp at hr

/-- Witness of C9: the radius argument `-1` becomes 4294967295 in both
dimensions. -/
theorem main_radius_mod_two_pow_32_witness :
    quietLibrary.atoi (wrappingArgv 4) = -1 ∧
    (main quietLibrary 5 wrappingArgv).radiiPassed = [[4294967295, 4294967295]] ∧
    (main quietLibrary 5 wrappingArgv).exit = .returned EXIT_SUCCESS :=
  have h := main_radius_mod_two_pow_32 quietLibrary wrappingArgv (-1) rfl
    (by decide) (by decide)
  ⟨rfl, h.1, h.2.2.2 (by decide) rfl⟩

end ApplyMorphologicalClosingOnSpecificLabelObject

/-! ## Claims on the dimension-check program and on both programs -/

/-- C5: the concept `SameDimension< D1, D2 >` is satisfied exactly when
`D1 = D2`; `main` instantiates it twice, on `(2, 2)` both times (the image
dimension against the literal 2, then against `ImageType2::ImageDimension`), both
checks pass, and for every argument list `main` returns `EXIT_SUCCESS` (0) with
nothing on standard error. -/
theorem dimension_check_main_succeeds :
    (∀ D1 D2 : Nat, ConceptCheckingIsSameDimension.Concept.SameDimension D1 D2 = true ↔ D1 = D2) ∧
    ∀ (argc : Int) (argv : Nat → String),
      ConceptCheckingIsSameDimension.main argc argv =
        some { exit := .returned EXIT_SUCCESS,
               final := { checks := [(2, 2), (2, 2)], stderr := "" } } ∧
      EXIT_SUCCESS = 0 := by
  refine ⟨?_, ?_⟩
  · intro D1 D2
    simp [ConceptCheckingIsSameDimension.Concept.SameDimension]
  · intro argc argv
    exact ⟨rfl, rfl⟩

/-- C4 fails as stated: invoked with `argc = 3`, the dimension-check program
returns 0 and prints nothing. -/
theorem dimension_check_main_prints_no_usage :
    ConceptCheckingIsSameDimension.main 3
        ApplyMorphologicalClosingOnSpecificLabelObject.sampleArgv =
      some { exit := .returned 0, final := { checks := [(2, 2), (2, 2)], stderr := "" } } := by
  rfl

/-- C4, amended: invoked with an argument count other than 5, the
morphological-closing program exits with the non-zero code `EXIT_FAILURE` and
prints the usage message; the dimension-check program has no argument-count
check: for every argument count and argument list (5 included) it exits with 0
and prints nothing. -/
theorem usage_only_in_closing_program :
    (∀ (lib : ApplyMorphologicalClosingOnSpecificLabelObject.Library) (argc : Int)
        (argv : Nat → String), argc ≠ 5 →
      (ApplyMorphologicalClosingOnSpecificLabelObject.main lib argc argv).exit =
        .returned EXIT_FAILURE ∧
      EXIT_FAILURE ≠ 0 ∧
      (ApplyMorphologicalClosingOnSpecificLabelObject.main lib argc argv).final.stderr =
        ApplyMorphologicalClosingOnSpecificLabelObject.usageMessage (argv 0)) ∧
    (∀ (argc : Int) (argv : Nat → String),
      ∃ run, ConceptCheckingIsSameDimension.main argc argv = some run ∧
        run.exit = .returned 0 ∧ run.final.stderr = "") := by
  refine ⟨?_, ?_⟩
  · intro lib argc argv h
    rw [ApplyMorphologicalClosingOnSpecificLabelObject.main_of_argc_ne_five lib argc argv h]
    exact ⟨rfl, by decide, rfl⟩
  · intro argc argv
    exact ⟨_, rfl, rfl, rfl⟩

/-- Witness of amended C4: the closing program at `argc = 3`, the dimension-check
program at `argc = 3` and at `argc = 5`. -/
theorem usage_only_in_closing_program_witness :
    (3 : Int) ≠ 5 ∧
    ((ApplyMorphologicalClosingOnSpecificLabelObject.main
      ApplyMorphologicalClosingOnSpecificLabelObject.quietLibrary 3
      ApplyMorphologicalClosingOnSpecificLabelObject.sampleArgv).exit = .returned EXIT_FAILURE ∧
    EXIT_FAILURE ≠ 0 ∧
    (ApplyMorphologicalClosingOnSpecificLabelObject.main
      ApplyMorphologicalClosingOnSpecificLabelObject.quietLibrary 3
      ApplyMorphologicalClosingOnSpecificLabelObject.sampleArgv).final.stderr =
      ApplyMorphologicalClosingOnSpecificLabelObject.usageMessage
        (ApplyMorphologicalClosingOnSpecificLabelObject.sampleArgv 0)) ∧
    (∃ run, ConceptCheckingIsSameDimension.main 3
        ApplyMorphologicalClosingOnSpecificLabelObject.sampleArgv = some run ∧
      run.exit = .returned 0 ∧ run.final.stderr = "") ∧
    (∃ run, ConceptCheckingIsSameDimension.main 5
        ApplyMorphologicalClosingOnSpecificLabelObject.sampleArgv = some run ∧
      run.exit = .returned 0 ∧ run.final.stderr = "") :=
  ⟨by decide,
    usage_only_in_closing_program.1
      ApplyMorphologicalClosingOnSpecificLabelObject.quietLibrary 3
      ApplyMorphologicalClosingOnSpecificLabelObject.sampleArgv (by decide),
    usage_only_in_closing_program.2 3
      ApplyMorphologicalClosingOnSpecificLabelObject.sampleArgv,
    usage_only_in_closing_program.2 5
      ApplyMorphologicalClosingOnSpecificLabelObject.sampleArgv⟩

end ITKExamples
